import Mathlib

/-!
Verification development for the WhatsApp session-lifecycle backend.

The repository contains two main implementation variants of the session
lifecycle manager:

* `part_001` (and its near-identical ESM port `part_000`): global mutable
  variables `sock`, `qrCode`, `connectionStatus`, `isAuthenticated`,
  `reconnectAttempts`, `isReconnecting`, `shouldReconnect`, with
  `connectToWhatsApp`, `attemptReconnect`, `cleanupSession` and the HTTP
  endpoints `/enviar`, `/desconectar`, `/reconectar`.
* `part_004`: a `SESSION_STATE` record with `initializeWhatsApp`,
  `closeSession` and the `/api/init`, `/api/disconnect`, `/api/reconnect`,
  `/api/send` endpoints.

Both are shallowly embedded below.  Handlers become pure functions from the
state (plus the event or request data) to the new state; scheduled
`setTimeout` callbacks are reified as `TimerA` values returned alongside the
new state; each constructed Baileys socket is identified by a generation
number (`nextGen`), and the list `live` tracks sockets that have been
constructed and not yet ended or closed.
-/

/-- Baileys `DisconnectReason.loggedOut` (external library constant). -/
def DisconnectReason_loggedOut : Nat := 401

/-- Baileys `DisconnectReason.connectionReplaced` (external library constant). -/
def DisconnectReason_connectionReplaced : Nat := 440

/-- Baileys `DisconnectReason.connectionLost` (external library constant). -/
def DisconnectReason_connectionLost : Nat := 408

/-- Baileys `DisconnectReason.timedOut` (external library constant;
in Baileys this shares the value 408 with `connectionLost`). -/
def DisconnectReason_timedOut : Nat := 408

/-- Baileys `DisconnectReason.badSession` (external library constant). -/
def DisconnectReason_badSession : Nat := 500

/-- The `lastDisconnect` data carried by a Baileys `connection.update` close
event: whether `lastDisconnect.error` is a `Boom` instance, and the value of
`error?.output?.statusCode` when present. -/
structure LastDisconnect where
  errIsBoom : Bool
  errStatusCode : Option Nat
deriving DecidableEq, Repr

/-- A Baileys `connection.update` payload: the destructured
`{ connection, lastDisconnect, qr }` fields. -/
structure ConnUpdate where
  connection : Option String
  lastDisconnect : Option LastDisconnect
  qr : Option String
deriving DecidableEq, Repr

/-- statusCode as computed by part_001 line 222 and part_000 line 182:
`(lastDisconnect?.error instanceof Boom)?.output?.statusCode`.
The parenthesised operand of the optional chain is the Boolean result of
`instanceof`.  A Boolean is never null or undefined, so `?.output` reads the
absent `output` property of that Boolean and yields undefined, and the final
`?.statusCode` then short-circuits to undefined.  Hence the computed
statusCode is undefined for every close event, whatever the underlying error
carries. -/
def extractStatusCode001 (_lastDisconnect : Option LastDisconnect) : Option Nat := none

/-- statusCode as computed by part_004 line 129:
`lastDisconnect?.error?.output?.statusCode` (a correct optional chain on the
error object itself). -/
def extractStatusCode004 (lastDisconnect : Option LastDisconnect) : Option Nat :=
  match lastDisconnect with
  | some l => l.errStatusCode
  | none => none

/-- `MAX_RECONNECT_ATTEMPTS` from part_001 line 75 / part_000 line 71. -/
def MAX_RECONNECT_ATTEMPTS : Nat := 3

/-- `RECONNECT_DELAY` (milliseconds) from part_001 line 76 / part_000 line 72. -/
def RECONNECT_DELAY : Nat := 5000

/-- The global mutable state of the part_001 / part_000 variant:
`sock` (current socket, by generation number), `qrCode`, `connectionStatus`,
`isAuthenticated`, `reconnectAttempts`, `isReconnecting`, `shouldReconnect`,
plus bookkeeping not visible to the JS code: `credsPresent` (whether the
`auth_info_baileys` directory holds persisted credentials), `live` (the
generations of sockets constructed and not yet ended or closed) and
`nextGen` (the next fresh generation number). -/
structure WAState where
  sock : Option Nat
  qrCode : Option String
  connectionStatus : String
  isAuthenticated : Bool
  reconnectAttempts : Nat
  isReconnecting : Bool
  shouldReconnect : Bool
  credsPresent : Bool
  live : List Nat
  nextGen : Nat
deriving DecidableEq, Repr

/-- The process-start values of the part_001 / part_000 globals
(part_001 lines 68-77), on a fresh deployment with no persisted auth
directory. -/
def initialA : WAState :=
  { sock := none, qrCode := none, connectionStatus := "inicializando",
    isAuthenticated := false, reconnectAttempts := 0, isReconnecting := false,
    shouldReconnect := true, credsPresent := false, live := [], nextGen := 0 }

/-- A `setTimeout` callback scheduled by the part_001 / part_000 code, with
its delay in milliseconds:
`backoff` is the attemptReconnect backoff timer (clears `isReconnecting`,
then connects if `shouldReconnect`); `connectIfShould` is the timer used by
the loggedOut / badSession close branches and the retry-exhaustion branch
(connects if `shouldReconnect`); `connectNow` is the unconditional
`setTimeout(connectToWhatsApp, 2000)` of the `/reconectar` endpoint. -/
inductive TimerA where
  | backoff (ms : Nat)
  | connectIfShould (ms : Nat)
  | connectNow (ms : Nat)
deriving DecidableEq, Repr

/-- `cleanupSession` (part_001 lines 98-127, part_000 lines 94-117): ends and
deregisters the current socket, deletes the auth directory, and resets
`qrCode`, `isAuthenticated`, `connectionStatus`, `isReconnecting`. -/
def cleanupSession (s : WAState) : WAState :=
  let s1 :=
    match s.sock with
    | some g => { s with live := s.live.erase g, sock := none }
    | none => s
  { s1 with credsPresent := false, qrCode := none, isAuthenticated := false,
            connectionStatus := "desconectado", isReconnecting := false }

/-- `attemptReconnect` (part_001 lines 130-174, part_000 lines 120-150,
identical in both): no-op when a reconnection is already in flight or
reconnection is disabled; otherwise increments `reconnectAttempts`; when the
incremented counter exceeds `MAX_RECONNECT_ATTEMPTS` it marks
`error_reconexion`, resets the counter, runs `cleanupSession` (which
overwrites the status with `desconectado`) and schedules a fresh connect
after `RECONNECT_DELAY`; otherwise it schedules the backoff timer with delay
`RECONNECT_DELAY * min reconnectAttempts 3`. -/
def attemptReconnect (s : WAState) : WAState × List TimerA :=
  if s.isReconnecting || !s.shouldReconnect then (s, [])
  else
    let s1 := { s with isReconnecting := true,
                       reconnectAttempts := s.reconnectAttempts + 1 }
    if MAX_RECONNECT_ATTEMPTS < s1.reconnectAttempts then
      let s2 := { s1 with connectionStatus := "error_reconexion",
                          isReconnecting := false, reconnectAttempts := 0 }
      (cleanupSession s2, [TimerA.connectIfShould RECONNECT_DELAY])
    else
      (s1, [TimerA.backoff (RECONNECT_DELAY * min s1.reconnectAttempts 3)])

/-- `connectToWhatsApp` (part_001 lines 176-319, part_000 lines 153-229):
no-op when the status is already `conectando` or `conectado`; otherwise sets
`conectando` and either constructs a fresh socket (success path) or, when
loading the credential state or constructing the socket throws
(`credsLoadFails`), sets `error` and consults `attemptReconnect` under the
part_001 catch guard `shouldReconnect && reconnectAttempts < MAX`.
On success the old socket (if any) is neither ended nor deregistered: the
new generation is simply pushed onto `live`. -/
def connectToWhatsApp (s : WAState) (credsLoadFails : Bool) : WAState × List TimerA :=
  if s.connectionStatus = "conectando" ∨ s.connectionStatus = "conectado" then
    (s, [])
  else
    let s1 := { s with connectionStatus := "conectando" }
    if credsLoadFails then
      let s2 := { s1 with connectionStatus := "error", isReconnecting := false }
      if s2.shouldReconnect ∧ s2.reconnectAttempts < MAX_RECONNECT_ATTEMPTS then
        attemptReconnect s2
      else (s2, [])
    else
      ({ s1 with sock := some s1.nextGen, nextGen := s1.nextGen + 1,
                 live := s1.nextGen :: s1.live }, [])

/-- The backoff timer callback scheduled by `attemptReconnect`
(part_001 lines 168-173): clear `isReconnecting`, then reconnect if
`shouldReconnect`. -/
def fireBackoff (s : WAState) (credsLoadFails : Bool) : WAState × List TimerA :=
  let s1 := { s with isReconnecting := false }
  if s1.shouldReconnect then connectToWhatsApp s1 credsLoadFails else (s1, [])

/-- The close branch of the part_001 `connection.update` handler
(lines 221-284), parametric in the already-computed `statusCode` variable.
Order of the classification chain follows the source: loggedOut, conflict,
badSession, lost-or-timed-out, unknown. -/
def connCloseCore001 (statusCode : Option Nat) (s : WAState) : WAState × List TimerA :=
  let isLoggedOut := statusCode = some DisconnectReason_loggedOut
  let isConflict := statusCode = some DisconnectReason_connectionReplaced
  let isLost := statusCode = some DisconnectReason_connectionLost
  let isTimedOut := statusCode = some DisconnectReason_timedOut
  let isBadSession := statusCode = some DisconnectReason_badSession
  let s1 := { s with connectionStatus := "desconectado",
                     isAuthenticated := false, qrCode := none }
  if isLoggedOut then
    (cleanupSession { s1 with reconnectAttempts := 0 }, [TimerA.connectIfShould 3000])
  else if isConflict then
    (cleanupSession { s1 with shouldReconnect := false }, [])
  else if isBadSession then
    (cleanupSession { s1 with reconnectAttempts := 0 }, [TimerA.connectIfShould 3000])
  else if isLost ∨ isTimedOut then
    if s1.shouldReconnect ∧ s1.reconnectAttempts < MAX_RECONNECT_ATTEMPTS then
      attemptReconnect s1
    else (s1, [])
  else
    if s1.shouldReconnect ∧ s1.reconnectAttempts < MAX_RECONNECT_ATTEMPTS then
      attemptReconnect s1
    else (s1, [])

/-- The part_001 `connection.update` handler (lines 209-299), attached to the
socket of generation `g`.  The qr field is processed first (store the code,
set `esperando_qr`, reset the retry counter), then the connection field.
A close event means the underlying socket `g` is no longer live, so `g` is
removed from `live`; note that the mutations of the globals do not depend on
`g` in the source: the handler performs no identity check. -/
def connUpdate001 (g : Nat) (s : WAState) (u : ConnUpdate) : WAState × List TimerA :=
  let sq :=
    match u.qr with
    | some q => { s with qrCode := some q, isAuthenticated := false,
                         connectionStatus := "esperando_qr", reconnectAttempts := 0 }
    | none => s
  if u.connection = some "close" then
    connCloseCore001 (extractStatusCode001 u.lastDisconnect)
      { sq with live := sq.live.erase g }
  else if u.connection = some "open" then
    ({ sq with connectionStatus := "conectado", isAuthenticated := true,
               qrCode := none, reconnectAttempts := 0, isReconnecting := false }, [])
  else if u.connection = some "connecting" then
    ({ sq with connectionStatus := "conectando" }, [])
  else (sq, [])

/-- The close branch of the part_000 `connection.update` handler
(lines 181-204), parametric in the computed `statusCode`: loggedOut and
badSession are merged, and the transient fallback is guarded only by
`shouldReconnect` (no retry-count check, unlike part_001). -/
def connCloseCore000 (statusCode : Option Nat) (s : WAState) : WAState × List TimerA :=
  let isLoggedOut := statusCode = some DisconnectReason_loggedOut
  let isConflict := statusCode = some DisconnectReason_connectionReplaced
  let isBadSession := statusCode = some DisconnectReason_badSession
  let s1 := { s with connectionStatus := "desconectado",
                     isAuthenticated := false, qrCode := none }
  if isLoggedOut ∨ isBadSession then
    (cleanupSession { s1 with reconnectAttempts := 0 }, [TimerA.connectIfShould 3000])
  else if isConflict then
    (cleanupSession { s1 with shouldReconnect := false }, [])
  else if s1.shouldReconnect then
    attemptReconnect s1
  else (s1, [])

/-- The part_000 `connection.update` handler (lines 172-217), attached to the
socket of generation `g`; qr, open and connecting branches are identical to
part_001. -/
def connUpdate000 (g : Nat) (s : WAState) (u : ConnUpdate) : WAState × List TimerA :=
  let sq :=
    match u.qr with
    | some q => { s with qrCode := some q, isAuthenticated := false,
                         connectionStatus := "esperando_qr", reconnectAttempts := 0 }
    | none => s
  if u.connection = some "close" then
    connCloseCore000 (extractStatusCode001 u.lastDisconnect)
      { sq with live := sq.live.erase g }
  else if u.connection = some "open" then
    ({ sq with connectionStatus := "conectado", isAuthenticated := true,
               qrCode := none, reconnectAttempts := 0, isReconnecting := false }, [])
  else if u.connection = some "connecting" then
    ({ sq with connectionStatus := "conectando" }, [])
  else (sq, [])

/-- The `creds.update` listener (part_001 line 302): `saveCreds` persists the
session credentials to the auth directory. -/
def credsUpdate001 (s : WAState) : WAState :=
  { s with credsPresent := true }

/-- The `/desconectar` endpoint (part_001 lines 438-462): disable automatic
reconnection, then, when a socket exists, best-effort logout (failures
caught; `logoutThrows` is absorbed) followed by `cleanupSession` and a 200
response; when no socket exists respond 400.  Returns the new state and the
HTTP status code. -/
def desconectar001 (s : WAState) (_logoutThrows : Bool) : WAState × Nat :=
  let s1 := { s with shouldReconnect := false }
  match s1.sock with
  | some _ => (cleanupSession s1, 200)
  | none => (s1, 400)

/-- The `/reconectar` endpoint (part_001 lines 420-435): re-enable automatic
reconnection, reset the retry counter and the in-flight flag, run
`cleanupSession`, respond 200, and schedule `connectToWhatsApp` after
2000 ms. -/
def reconectar001 (s : WAState) : WAState × List TimerA :=
  let s1 := { s with shouldReconnect := true, reconnectAttempts := 0,
                     isReconnecting := false }
  (cleanupSession s1, [TimerA.connectNow 2000])

/-- The `/enviar` endpoint of part_001 (lines 383-417): reject with 400 when
the status is not `conectado` or not authenticated, reject with 400 on a
missing body field, otherwise call `sock.sendMessage` (500 when it throws,
200 otherwise).  The second component records whether a network call into
the socket was made. -/
def enviar001 (s : WAState) (bodyValid : Bool) (sendFails : Bool) : Nat × Bool :=
  if ¬ (s.connectionStatus = "conectado") ∨ s.isAuthenticated = false then (400, false)
  else if ¬ bodyValid then (400, false)
  else if sendFails then (500, true)
  else (200, true)

/-- The `/enviar` endpoint of part_000 (lines 263-279): the guard checks only
`isAuthenticated` (the connection status is not consulted); rejection is 409,
then 400 on a missing body field, otherwise `sock.sendMessage` is invoked
(500 when it throws, 200 otherwise).  The second component records whether a
network call into the socket was made. -/
def enviar000 (s : WAState) (bodyValid : Bool) (sendFails : Bool) : Nat × Bool :=
  if s.isAuthenticated = false then (409, false)
  else if ¬ bodyValid then (400, false)
  else if sendFails then (500, true)
  else (200, true)

/-- The `SESSION_STATE` record of the part_004 variant (lines 60-66):
`socket` (by generation), `status`, `qr` (base64 data URL), `retryCount`,
`maxRetries`, plus the generation counter `nextGen`. -/
structure SState where
  socket : Option Nat
  status : String
  qr : Option String
  retryCount : Nat
  maxRetries : Nat
  nextGen : Nat
deriving DecidableEq, Repr

/-- The initial `SESSION_STATE` of part_004 (lines 60-66). -/
def initialB : SState :=
  { socket := none, status := "disconnected", qr := none,
    retryCount := 0, maxRetries := 3, nextGen := 0 }

/-- The out-of-scope QR rendering collaborator (`qrcode.toDataURL`,
part_004 line 108), modelled as an injective tagging of the raw pairing
string; only the presence or absence of the rendered payload matters to the
lifecycle logic. -/
def qrToDataURL (q : String) : String :=
  "data:image/png;base64," ++ q

/-- Effects of one run of the part_004 `connection.update` handler that are
not part of `SESSION_STATE`: whether `socket.end` was invoked (max-QR-retries
branch) and whether a reconnect `setTimeout` was scheduled (close branch). -/
structure Effects004 where
  endedSocket : Bool
  scheduledReconnect : Bool
deriving DecidableEq, Repr

/-- `initializeWhatsApp` (part_004 lines 68-178): no-op when a socket already
exists; otherwise set `connecting` and either construct a fresh socket and
store it as the sole handle, or, when loading the auth state, fetching the
Baileys version or constructing the socket throws (`credsLoadFails`), null
the socket and set `error` (catch branch, lines 173-177). -/
def initializeWhatsApp (s : SState) (credsLoadFails : Bool) : SState :=
  if s.socket ≠ none then s
  else
    let s1 := { s with status := "connecting" }
    if credsLoadFails then { s1 with socket := none, status := "error" }
    else { s1 with socket := some s1.nextGen, nextGen := s1.nextGen + 1 }

/-- The qr branch of the part_004 `connection.update` handler
(lines 106-125): render the code, store it, set status `qr` and increment
`retryCount`; when the incremented counter reaches `maxRetries`, set status
`error`, clear the payload and end the socket.  The Boolean records whether
`socket.end` was called. -/
def qrPhase004 (s : SState) (q : Option String) : SState × Bool :=
  match q with
  | some qv =>
      let s1 := { s with qr := some (qrToDataURL qv), status := "qr",
                         retryCount := s.retryCount + 1 }
      if s1.maxRetries ≤ s1.retryCount then
        ({ s1 with status := "error", qr := none }, true)
      else (s1, false)
  | none => (s, false)

/-- The part_004 `connection.update` handler (lines 102-160), attached to the
socket of generation `_g`; the state mutations do not depend on the
originating socket (the source performs no identity comparison; the computed
`isConflict` flag, line 131, only feeds a log line).  The qr field is
processed first, then close (null the socket; either set `connecting` and
schedule a reconnect timer, or set `disconnected`/`error` with payload and
counter cleared) and open (set `connected`, clear payload and counter). -/
def connUpdate004 (_g : Nat) (s : SState) (u : ConnUpdate) : SState × Effects004 :=
  let p := qrPhase004 s u.qr
  let s0 := p.1
  if u.connection = some "close" then
    let reason := extractStatusCode004 u.lastDisconnect
    let isLogout := reason = some DisconnectReason_loggedOut
    if ¬ isLogout ∧ s0.socket ≠ none ∧ s0.retryCount < s0.maxRetries then
      ({ s0 with socket := none, status := "connecting" },
       { endedSocket := p.2, scheduledReconnect := true })
    else
      ({ s0 with socket := none,
                 status := if isLogout then "disconnected" else "error",
                 qr := none, retryCount := 0 },
       { endedSocket := p.2, scheduledReconnect := false })
  else if u.connection = some "open" then
    ({ s0 with status := "connected", qr := none, retryCount := 0 },
     { endedSocket := p.2, scheduledReconnect := false })
  else
    (s0, { endedSocket := p.2, scheduledReconnect := false })

/-- `closeSession` (part_004 lines 180-203): no-op when no socket exists;
otherwise the shared state fields are reset first (socket null, status
`disconnected`, qr null, retryCount 0) and only then are `logout`/`end`
attempted on the captured socket, with any failure caught and logged, so the
reset survives a throwing teardown (`_logoutOrEndThrows` is absorbed). -/
def closeSession (s : SState) (_logoutOrEndThrows : Bool) : SState :=
  match s.socket with
  | none => s
  | some _ =>
      { s with socket := none, status := "disconnected", qr := none, retryCount := 0 }

/-- The `POST /api/init` handler (part_004 lines 265-285): when the status is
`connected`, or `connecting`, or `qr`, respond 200 without touching the
state; otherwise reset `retryCount` and start `initializeWhatsApp`
(responding 202). -/
def apiInit004 (s : SState) (credsLoadFails : Bool) : SState × Nat :=
  if s.status = "connected" then (s, 200)
  else if s.status = "connecting" ∨ s.status = "qr" then (s, 200)
  else
    let s1 := { s with retryCount := 0 }
    (initializeWhatsApp s1 credsLoadFails, 202)

/-- The `POST /api/disconnect` handler (part_004 lines 311-318): run
`closeSession` and respond 200 unconditionally. -/
def apiDisconnect004 (s : SState) (logoutOrEndThrows : Bool) : SState × Nat :=
  (closeSession s logoutOrEndThrows, 200)

/-- The `POST /api/reconnect` handler (part_004 lines 320-329): run
`closeSession`, reset `retryCount`, start `initializeWhatsApp`, respond
200. -/
def apiReconnect004 (s : SState) (logoutOrEndThrows credsLoadFails : Bool) : SState × Nat :=
  let s1 := closeSession s logoutOrEndThrows
  let s2 := { s1 with retryCount := 0 }
  (initializeWhatsApp s2 credsLoadFails, 200)

/-- The `POST /api/send` handler (part_004 lines 337-360): 400 when the
validator rejects the body; 409 (`AppError` thrown before any socket use)
when the status is not `connected` or no socket exists; otherwise delegate
to `socket.sendMessage` and respond 200, or 500 through the error handler
when the send throws.  The second component records whether a network call
into the socket was made. -/
def apiSend004 (s : SState) (bodyValid : Bool) (sendFails : Bool) : Nat × Bool :=
  if ¬ bodyValid then (400, false)
  else if ¬ (s.status = "connected") ∨ s.socket = none then (409, false)
  else if sendFails then (500, true)
  else (200, true)

/-- The states of the part_004 `SESSION_STATE` reachable from process start
through the embedded operations: socket initialization (directly or through
the reconnect `setTimeout`, whose body is `initializeWhatsApp` guarded by a
socket-null check that the function itself re-performs), connection events,
`closeSession`, and the `/api/init` and `/api/reconnect` handlers. -/
inductive ReachB : SState → Prop where
  | start : ReachB initialB
  | stepInit (f : Bool) {s : SState} (h : ReachB s) : ReachB (initializeWhatsApp s f)
  | stepUpd (g : Nat) (u : ConnUpdate) {s : SState} (h : ReachB s) :
      ReachB (connUpdate004 g s u).1
  | stepCloseSession (t : Bool) {s : SState} (h : ReachB s) : ReachB (closeSession s t)
  | stepApiInit (f : Bool) {s : SState} (h : ReachB s) : ReachB (apiInit004 s f).1
  | stepApiReconnect (t f : Bool) {s : SState} (h : ReachB s) :
      ReachB (apiReconnect004 s t f).1

/-- The pairing-payload invariant that does hold of part_004: whenever the
status is `connected` or `disconnected`, the stored qr payload is null. -/
def QrInv (s : SState) : Prop :=
  s.status = "connected" ∨ s.status = "disconnected" → s.qr = none

/-! Concrete traces used by the individual claims. -/

/-- C1 trace: two quick `/reconectar` requests leave two pending
`setTimeout(connectToWhatsApp, 2000)` callbacks. -/
def c1sB : WAState := (reconectar001 (reconectar001 initialA).1).1

/-- C1 trace: the first pending timer fires and constructs socket 0. -/
def c1sC : WAState := (connectToWhatsApp c1sB false).1

/-- C1 trace: socket 0 reports a pairing code; status `esperando_qr`. -/
def c1sD : WAState := (connUpdate001 0 c1sC ⟨none, none, some "QR-XYZ"⟩).1

/-- C1 trace: the second pending timer fires while the status is
`esperando_qr`; the guard of `connectToWhatsApp` does not cover that status,
so a second socket is constructed while socket 0 is still live. -/
def c1sE : WAState := (connectToWhatsApp c1sD false).1

/-- C1: the claim fails on part_001.  In the reachable state `c1sD`
(status `esperando_qr`, socket 0 live and awaiting its pairing scan, reached
by two back-to-back `/reconectar` requests whose two timers bracket the qr
event), invoking `connectToWhatsApp` is not a no-op: it mutates the status
to `conectando` and constructs a second socket, leaving two live Protocol
Client handles at once. -/
theorem c1_counterexample :
    c1sD.connectionStatus = "esperando_qr" ∧ c1sD.live = [0] ∧
    c1sE.connectionStatus = "conectando" ∧ c1sE.live = [1, 0] ∧
    c1sE.live.length = 2 ∧ c1sE ≠ c1sD := by
  refine ⟨rfl, by decide, rfl, by decide, by decide, by decide⟩

/-- C1 (amended): in part_004 both guards hold — `initializeWhatsApp` is a
no-op whenever a socket exists, and `POST /api/init` is a pure 200 response
whenever the status is connected, connecting or qr.  In part_001, however,
`connectToWhatsApp` is a no-op only while the status is `conectando` or
`conectado`: invoked during `esperando_qr` it proceeds, sets `conectando`
and pushes a fresh socket generation on top of the still-live old one. -/
theorem c1_theorem :
    (∀ (s : WAState) (f : Bool),
        s.connectionStatus = "conectando" ∨ s.connectionStatus = "conectado" →
        connectToWhatsApp s f = (s, [])) ∧
    (∀ (s : SState) (f : Bool), s.socket ≠ none → initializeWhatsApp s f = s) ∧
    (∀ (s : SState) (f : Bool),
        s.status = "connected" ∨ s.status = "connecting" ∨ s.status = "qr" →
        apiInit004 s f = (s, 200)) ∧
    (∀ s : WAState, s.connectionStatus = "esperando_qr" →
        (connectToWhatsApp s false).1.sock = some s.nextGen ∧
        (connectToWhatsApp s false).1.connectionStatus = "conectando" ∧
        (connectToWhatsApp s false).1.live = s.nextGen :: s.live) := by
  refine ⟨?_, ?_, ?_, ?_⟩
  · intro s f h
    unfold connectToWhatsApp
    rw [if_pos h]
  · intro s f h
    unfold initializeWhatsApp
    rw [if_pos h]
  · intro s f h
    rcases h with h | h | h
    · unfold apiInit004
      rw [if_pos h]
    · have hne : ¬ s.status = "connected" := by rw [h]; decide
      unfold apiInit004
      rw [if_neg hne, if_pos (Or.inl h)]
    · have hne : ¬ s.status = "connected" := by rw [h]; decide
      unfold apiInit004
      rw [if_neg hne, if_pos (Or.inr h)]
  · intro s h
    have hne : ¬ (s.connectionStatus = "conectando" ∨ s.connectionStatus = "conectado") := by
      rw [h]; decide
    unfold connectToWhatsApp
    rw [if_neg hne]
    exact ⟨rfl, rfl, rfl⟩

/-- C1 witness: the part_001 no-op guard at a concrete `conectando` state,
and the part_004 guards at concrete states. -/
theorem c1_witness :
    ({ initialA with connectionStatus := "conectando" }.connectionStatus = "conectando" ∨
      { initialA with connectionStatus := "conectando" }.connectionStatus = "conectado") ∧
    connectToWhatsApp { initialA with connectionStatus := "conectando" } true =
      ({ initialA with connectionStatus := "conectando" }, []) ∧
    initializeWhatsApp (initializeWhatsApp initialB false) true =
      initializeWhatsApp initialB false := by
  refine ⟨Or.inl rfl, c1_theorem.1 _ true (Or.inl rfl), c1_theorem.2.1 _ true (by decide)⟩

/-- C2 trace: init, open, `/api/reconnect`, open — socket 1 is now the
current handle, socket 0 has been superseded and ended. -/
def c2b4 : SState :=
  (connUpdate004 1
    ((apiReconnect004
      ((connUpdate004 0 (initializeWhatsApp initialB false)
        ⟨some "open", none, none⟩).1) false false).1)
    ⟨some "open", none, none⟩).1

/-- C2: the claim fails on part_004.  In the reachable state `c2b4`
(current socket 1, status connected) a late close event from the superseded
socket 0 is processed exactly like a live close: it nulls the current socket
reference, rewrites the status to `connecting` and schedules a reconnect
timer — the SessionState is mutated, not left unchanged. -/
theorem c2_counterexample :
    c2b4.socket = some 1 ∧ c2b4.status = "connected" ∧
    (connUpdate004 0 c2b4 ⟨some "close", some ⟨true, some 408⟩, none⟩).1.socket = none ∧
    (connUpdate004 0 c2b4 ⟨some "close", some ⟨true, some 408⟩, none⟩).1.status =
      "connecting" ∧
    (connUpdate004 0 c2b4 ⟨some "close", some ⟨true, some 408⟩, none⟩).2.scheduledReconnect =
      true ∧
    (connUpdate004 0 c2b4 ⟨some "close", some ⟨true, some 408⟩, none⟩).1 ≠ c2b4 := by
  refine ⟨by decide, rfl, by decide, rfl, rfl, by decide⟩

/-- C2 (amended): the part_004 `connection.update` handler performs no
handle-identity comparison — its outcome is independent of the generation of
the socket that emitted the event, so an event from a superseded handle
mutates the current SessionState exactly as the same event from the current
handle would; in particular the stale close in state `c2b4` destroys the
current socket reference. -/
theorem c2_theorem :
    (∀ (g1 g2 : Nat) (s : SState) (u : ConnUpdate),
        connUpdate004 g1 s u = connUpdate004 g2 s u) ∧
    connUpdate004 0 c2b4 ⟨some "close", some ⟨true, some 408⟩, none⟩ =
      connUpdate004 1 c2b4 ⟨some "close", some ⟨true, some 408⟩, none⟩ ∧
    (connUpdate004 0 c2b4 ⟨some "close", some ⟨true, some 408⟩, none⟩).1 ≠ c2b4 := by
  exact ⟨fun _ _ _ _ => rfl, rfl, by decide⟩

/-- C3 trace: connect, open, then a first Transient (connection lost, Boom
statusCode 408) close — `attemptReconnect` runs and schedules a 5000 ms
backoff timer. -/
def c3r1 : WAState × List TimerA :=
  connUpdate001 0
    ((connUpdate001 0 (connectToWhatsApp initialA false).1 ⟨some "open", none, none⟩).1)
    ⟨some "close", some ⟨true, some 408⟩, none⟩

/-- C3 trace: backoff timer fires, socket 1 is constructed, second Transient
close. -/
def c3r2 : WAState × List TimerA :=
  connUpdate001 1 (fireBackoff c3r1.1 false).1 ⟨some "close", some ⟨true, some 408⟩, none⟩

/-- C3 trace: backoff timer fires, socket 2 is constructed, third Transient
close. -/
def c3r3 : WAState × List TimerA :=
  connUpdate001 2 (fireBackoff c3r2.1 false).1 ⟨some "close", some ⟨true, some 408⟩, none⟩

/-- C3 trace: backoff timer fires, socket 3 is constructed, fourth Transient
close. -/
def c3r4 : WAState × List TimerA :=
  connUpdate001 3 (fireBackoff c3r3.1 false).1 ⟨some "close", some ⟨true, some 408⟩, none⟩

/-- C3: the claim fails on part_001.  Starting from OPEN with
`MAX_RECONNECT_ATTEMPTS = 3`, after the third consecutive Transient close
the status is `desconectado` — not an ERRORED status — and a 15000 ms
backoff timer is pending, which does fire a new connect without any operator
`reconnect()`. -/
theorem c3_counterexample :
    c3r3.1.connectionStatus = "desconectado" ∧
    c3r3.1.connectionStatus ≠ "error_reconexion" ∧
    c3r3.1.connectionStatus ≠ "error" ∧
    c3r3.1.reconnectAttempts = 3 ∧
    c3r3.2 = [TimerA.backoff 15000] := by
  refine ⟨rfl, by decide, by decide, rfl, rfl⟩

/-- C3 (amended): after the third consecutive Transient close the counter
reaches 3 and another reconnect is still scheduled (backoff 15000 ms), with
status `desconectado`; automatic retrying stops only at the fourth
consecutive Transient close, which schedules no timer and still leaves the
status `desconectado`, never an ERRORED status. -/
theorem c3_theorem :
    c3r1.2 = [TimerA.backoff 5000] ∧
    c3r2.2 = [TimerA.backoff 10000] ∧
    c3r3.2 = [TimerA.backoff 15000] ∧
    c3r3.1.connectionStatus = "desconectado" ∧
    c3r3.1.reconnectAttempts = 3 ∧
    c3r4.2 = [] ∧
    c3r4.1.connectionStatus = "desconectado" ∧
    c3r4.1.reconnectAttempts = 3 := by
  refine ⟨rfl, rfl, rfl, rfl, rfl, rfl, rfl, rfl⟩

/-- C4: during a run of Transient closes (reconnection enabled, no backoff in
flight, retry budget not exhausted), `attemptReconnect` increments the
counter by exactly 1 and schedules a single backoff timer of
`RECONNECT_DELAY * min (reconnectAttempts + 1) 3` milliseconds; that delay
formula is non-decreasing in the attempt number and never exceeds three
times the base delay. -/
theorem c4_theorem (s : WAState) (h1 : s.isReconnecting = false)
    (h2 : s.shouldReconnect = true)
    (h3 : s.reconnectAttempts < MAX_RECONNECT_ATTEMPTS) :
    (attemptReconnect s).1.reconnectAttempts = s.reconnectAttempts + 1 ∧
    (attemptReconnect s).2 =
      [TimerA.backoff (RECONNECT_DELAY * min (s.reconnectAttempts + 1) 3)] ∧
    (∀ n : Nat, RECONNECT_DELAY * min n 3 ≤ RECONNECT_DELAY * min (n + 1) 3) ∧
    (∀ n : Nat, RECONNECT_DELAY * min n 3 ≤ 3 * RECONNECT_DELAY) := by
  have hmax : ¬ (MAX_RECONNECT_ATTEMPTS < s.reconnectAttempts + 1) := by
    unfold MAX_RECONNECT_ATTEMPTS at h3 ⊢
    omega
  refine ⟨?_, ?_, ?_, ?_⟩
  · simp [attemptReconnect, h1, h2, hmax]
  · simp [attemptReconnect, h1, h2, hmax]
  · intro n
    have h : min n 3 ≤ min (n + 1) 3 := by omega
    exact Nat.mul_le_mul (Nat.le_refl _) h
  · intro n
    have h : min n 3 ≤ 3 := by omega
    calc RECONNECT_DELAY * min n 3 ≤ RECONNECT_DELAY * 3 := Nat.mul_le_mul (Nat.le_refl _) h
      _ = 3 * RECONNECT_DELAY := Nat.mul_comm _ _

/-- C4 witness: one backoff cycle evaluated at the initial state. -/
theorem c4_witness :
    initialA.isReconnecting = false ∧ initialA.shouldReconnect = true ∧
    initialA.reconnectAttempts < MAX_RECONNECT_ATTEMPTS ∧
    (attemptReconnect initialA).1.reconnectAttempts = initialA.reconnectAttempts + 1 ∧
    (attemptReconnect initialA).2 =
      [TimerA.backoff (RECONNECT_DELAY * min (initialA.reconnectAttempts + 1) 3)] := by
  have h := c4_theorem initialA rfl rfl (by decide)
  exact ⟨rfl, rfl, by decide, h.1, h.2.1⟩

/-- C5 trace: connect, persist credentials, open — a connected state with
stored credentials present. -/
def c5sC : WAState :=
  (connUpdate001 0 (credsUpdate001 (connectToWhatsApp initialA false).1)
    ⟨some "open", none, none⟩).1

/-- C5: the claim fails on part_001.  From the connected state `c5sC`, a
close event whose underlying Boom error carries statusCode 440
(`connectionReplaced`, the multi-device conflict) is processed with
`statusCode = undefined` (the extraction optional-chains on the Boolean
result of `instanceof`), so it falls into the unknown-error branch:
auto-reconnect stays enabled and a backoff reconnect timer is scheduled,
contradicting both "disables auto-reconnect" and "schedules no reconnect
timer". -/
theorem c5_counterexample :
    c5sC.connectionStatus = "conectado" ∧ c5sC.credsPresent = true ∧
    (connUpdate001 0 c5sC ⟨some "close", some ⟨true, some 440⟩, none⟩).1.shouldReconnect =
      true ∧
    (connUpdate001 0 c5sC ⟨some "close", some ⟨true, some 440⟩, none⟩).2 =
      [TimerA.backoff 5000] := by
  refine ⟨rfl, rfl, rfl, rfl⟩

/-- C5 (amended): the computed statusCode is undefined for every close, so
the Conflict branch is unreachable and an actual conflict close (Boom 440)
takes the unknown-error branch — auto-reconnect stays enabled, credentials
stay intact and a backoff reconnect is scheduled whenever retries remain.
The Conflict branch as written would disable auto-reconnect, set status
`desconectado` and schedule no timer, but it wipes the stored credentials
through `cleanupSession` rather than leaving them intact. -/
theorem c5_theorem :
    (∀ ld : Option LastDisconnect, extractStatusCode001 ld = none) ∧
    (∀ s : WAState,
        (connCloseCore001 (some DisconnectReason_connectionReplaced) s).1.shouldReconnect =
          false ∧
        (connCloseCore001 (some DisconnectReason_connectionReplaced) s).1.credsPresent =
          false ∧
        (connCloseCore001 (some DisconnectReason_connectionReplaced) s).1.connectionStatus =
          "desconectado" ∧
        (connCloseCore001 (some DisconnectReason_connectionReplaced) s).2 = []) ∧
    (∀ (g : Nat) (s : WAState) (ld : LastDisconnect),
        s.isReconnecting = false → s.shouldReconnect = true →
        s.reconnectAttempts < MAX_RECONNECT_ATTEMPTS →
        (connUpdate001 g s ⟨some "close", some ld, none⟩).1.shouldReconnect = true ∧
        (connUpdate001 g s ⟨some "close", some ld, none⟩).1.credsPresent = s.credsPresent ∧
        (connUpdate001 g s ⟨some "close", some ld, none⟩).2 =
          [TimerA.backoff (RECONNECT_DELAY * min (s.reconnectAttempts + 1) 3)]) := by
  refine ⟨fun _ => rfl, ?_, ?_⟩
  · intro s
    cases hs : s.sock with
    | none =>
        refine ⟨?_, ?_, ?_, ?_⟩ <;>
          simp [connCloseCore001, cleanupSession, hs, DisconnectReason_loggedOut,
            DisconnectReason_connectionReplaced]
    | some g =>
        refine ⟨?_, ?_, ?_, ?_⟩ <;>
          simp [connCloseCore001, cleanupSession, hs, DisconnectReason_loggedOut,
            DisconnectReason_connectionReplaced]
  · intro g s ld h1 h2 h3
    have hmax : ¬ (MAX_RECONNECT_ATTEMPTS < s.reconnectAttempts + 1) := by
      unfold MAX_RECONNECT_ATTEMPTS at h3 ⊢
      omega
    refine ⟨?_, ?_, ?_⟩ <;>
      simp [connUpdate001, connCloseCore001, extractStatusCode001, attemptReconnect,
        h1, h2, h3, hmax]

/-- C5 witness: the unknown-error handling of a conflict close applied at the
concrete connected state `c5sC`. -/
theorem c5_witness :
    c5sC.isReconnecting = false ∧ c5sC.shouldReconnect = true ∧
    c5sC.reconnectAttempts < MAX_RECONNECT_ATTEMPTS ∧
    (connUpdate001 0 c5sC ⟨some "close", some ⟨true, some 440⟩, none⟩).1.shouldReconnect =
      true := by
  have h := c5_theorem.2.2 0 c5sC ⟨true, some 440⟩ rfl rfl (by decide)
  exact ⟨rfl, rfl, by decide, h.1⟩

/-- The qr branch of the part_004 handler preserves the payload invariant:
it only produces the statuses `qr` and `error`. -/
theorem qrPhase004_qrInv (s : SState) (q : Option String) (h : QrInv s) :
    QrInv (qrPhase004 s q).1 := by
  cases q with
  | none => exact h
  | some qv =>
      simp only [qrPhase004]
      split
      · intro hd
        rcases hd with hd | hd <;> simp at hd
      · intro hd
        rcases hd with hd | hd <;> simp at hd

/-- The part_004 `connection.update` handler preserves the payload
invariant. -/
theorem connUpdate004_qrInv (g : Nat) (s : SState) (u : ConnUpdate) (h : QrInv s) :
    QrInv (connUpdate004 g s u).1 := by
  have hq := qrPhase004_qrInv s u.qr h
  simp only [connUpdate004]
  split
  · split
    · intro hd
      rcases hd with hd | hd <;> simp at hd
    · intro _
      rfl
  · split
    · intro _
      rfl
    · exact hq

/-- `initializeWhatsApp` preserves the payload invariant: it only produces
the statuses `connecting` and `error`, or leaves the state unchanged. -/
theorem initializeWhatsApp_qrInv (s : SState) (f : Bool) (h : QrInv s) :
    QrInv (initializeWhatsApp s f) := by
  simp only [initializeWhatsApp]
  split
  · exact h
  · split
    · intro hd
      rcases hd with hd | hd <;> simp at hd
    · intro hd
      rcases hd with hd | hd <;> simp at hd

/-- `closeSession` preserves the payload invariant: either a no-op or a full
reset with a null payload. -/
theorem closeSession_qrInv (s : SState) (t : Bool) (h : QrInv s) :
    QrInv (closeSession s t) := by
  simp only [closeSession]
  split
  · exact h
  · intro _
    rfl

/-- The `/api/init` handler preserves the payload invariant. -/
theorem apiInit004_qrInv (s : SState) (f : Bool) (h : QrInv s) :
    QrInv (apiInit004 s f).1 := by
  simp only [apiInit004]
  split
  · exact h
  · split
    · exact h
    · exact initializeWhatsApp_qrInv _ f (fun hd => h hd)

/-- The `/api/reconnect` handler preserves the payload invariant. -/
theorem apiReconnect004_qrInv (s : SState) (t f : Bool) (h : QrInv s) :
    QrInv (apiReconnect004 s t f).1 := by
  have h1 := closeSession_qrInv s t h
  exact initializeWhatsApp_qrInv _ f (fun hd => h1 hd)

/-- C6 trace: init, qr event, Transient close — the reconnect branch of the
close handler leaves the stored payload in place while setting the status to
`connecting`. -/
def c6e3 : SState :=
  (connUpdate004 0
    ((connUpdate004 0 (initializeWhatsApp initialB false) ⟨none, none, some "Q"⟩).1)
    ⟨some "close", some ⟨true, some 408⟩, none⟩).1

/-- C6: the claim fails on part_004.  The reachable state `c6e3` carries a
non-null pairing payload while its status is `connecting`, not the
awaiting-pairing status `qr`: the close transition out of `qr` did not clear
the payload. -/
theorem c6_counterexample :
    ReachB c6e3 ∧ c6e3.qr = some (qrToDataURL "Q") ∧
    c6e3.status = "connecting" ∧ c6e3.status ≠ "qr" := by
  refine ⟨?_, rfl, rfl, by decide⟩
  exact ReachB.stepUpd 0 _ (ReachB.stepUpd 0 _ (ReachB.stepInit false ReachB.start))

/-- C6 (amended): in every reachable part_004 state the pairing payload is
null whenever the status is `connected` or `disconnected`; the two-sided
version fails because the reconnect branch of the close handler and a failed
re-initialization keep a non-null payload under the statuses `connecting`
and `error`. -/
theorem c6_theorem :
    ∀ s : SState, ReachB s →
      (s.status = "connected" ∨ s.status = "disconnected") → s.qr = none := by
  intro s h
  induction h with
  | start => intro _; rfl
  | stepInit f h ih => exact initializeWhatsApp_qrInv _ f ih
  | stepUpd g u h ih => exact connUpdate004_qrInv g _ u ih
  | stepCloseSession t h ih => exact closeSession_qrInv _ t ih
  | stepApiInit f h ih => exact apiInit004_qrInv _ f ih
  | stepApiReconnect t f h ih => exact apiReconnect004_qrInv _ t f ih

/-- C6 witness: the invariant evaluated at the initial (reachable,
disconnected) state. -/
theorem c6_witness :
    ReachB initialB ∧ (initialB.status = "connected" ∨ initialB.status = "disconnected") ∧
    initialB.qr = none := by
  exact ⟨ReachB.start, Or.inr rfl, c6_theorem initialB ReachB.start (Or.inr rfl)⟩

/-- C7 trace: a freshly initialized part_004 session, status `connecting`,
retryCount 0. -/
def c7b1 : SState := initializeWhatsApp initialB false

/-- C7: the claim fails on part_004.  A pairing-code event arriving in the
connecting state `c7b1` stores the payload and moves to the
awaiting-pairing status, but sets retryCount to 1 — it increments the
counter instead of resetting it to 0. -/
theorem c7_counterexample :
    c7b1.status = "connecting" ∧ c7b1.retryCount = 0 ∧
    (connUpdate004 0 c7b1 ⟨none, none, some "Q"⟩).1.status = "qr" ∧
    (connUpdate004 0 c7b1 ⟨none, none, some "Q"⟩).1.retryCount = 1 ∧
    (connUpdate004 0 c7b1 ⟨none, none, some "Q"⟩).1.retryCount ≠ 0 := by
  refine ⟨rfl, rfl, rfl, rfl, by decide⟩

/-- C7 (amended): in part_001 a pairing-code event stores the payload, sets
`esperando_qr` and resets the retry counter to 0, as the claim says; in
part_004 the event stores the rendered payload and sets status `qr` but
increments `retryCount` by 1, and once the incremented counter reaches
`maxRetries` it instead marks the session errored, clears the payload and
ends the socket. -/
theorem c7_theorem :
    (∀ (g : Nat) (s : WAState) (q : String),
        connUpdate001 g s ⟨none, none, some q⟩ =
          ({ s with qrCode := some q, isAuthenticated := false,
                    connectionStatus := "esperando_qr", reconnectAttempts := 0 }, [])) ∧
    (∀ (g : Nat) (s : SState) (q : String),
        s.retryCount + 1 < s.maxRetries →
        connUpdate004 g s ⟨none, none, some q⟩ =
          ({ s with qr := some (qrToDataURL q), status := "qr",
                    retryCount := s.retryCount + 1 },
           { endedSocket := false, scheduledReconnect := false })) ∧
    (∀ (g : Nat) (s : SState) (q : String),
        s.maxRetries ≤ s.retryCount + 1 →
        connUpdate004 g s ⟨none, none, some q⟩ =
          ({ s with qr := none, status := "error", retryCount := s.retryCount + 1 },
           { endedSocket := true, scheduledReconnect := false })) := by
  refine ⟨?_, ?_, ?_⟩
  · intro g s q
    simp [connUpdate001]
  · intro g s q h
    have hn : ¬ (s.maxRetries ≤ s.retryCount + 1) := Nat.not_le.mpr h
    simp [connUpdate004, qrPhase004, hn]
  · intro g s q h
    simp [connUpdate004, qrPhase004, h]

/-- C7 witness: the incrementing qr transition evaluated at the concrete
connecting state `c7b1`. -/
theorem c7_witness :
    c7b1.retryCount + 1 < c7b1.maxRetries ∧
    connUpdate004 0 c7b1 ⟨none, none, some "Q"⟩ =
      ({ c7b1 with qr := some (qrToDataURL "Q"), status := "qr",
                   retryCount := c7b1.retryCount + 1 },
       { endedSocket := false, scheduledReconnect := false }) := by
  exact ⟨by decide, c7_theorem.2.1 0 c7b1 "Q" (by decide)⟩

/-- C8 trace (part_000): connect, open, then a `connecting` update — the
status leaves `conectado` but `isAuthenticated` remains true. -/
def c8w3 : WAState :=
  (connUpdate000 0
    ((connUpdate000 0 (connectToWhatsApp initialA false).1 ⟨some "open", none, none⟩).1)
    ⟨some "connecting", none, none⟩).1

/-- C8: the claim fails on part_000.  In the reachable state `c8w3` the
status is `conectando` (not OPEN), yet `/enviar` accepts the request and
performs the network call into the socket, because its guard checks only
`isAuthenticated`. -/
theorem c8_counterexample :
    c8w3.connectionStatus = "conectando" ∧ c8w3.connectionStatus ≠ "conectado" ∧
    c8w3.isAuthenticated = true ∧
    enviar000 c8w3 true false = (200, true) := by
  refine ⟨rfl, by decide, rfl, rfl⟩

/-- C8 (amended): part_004 behaves as claimed — `/api/send` answers 409
without touching the socket unless the status is `connected` and a socket
exists, and otherwise delegates, answering 200 or 500 on a send failure.
The part_000 `/enviar` endpoint, however, guards only on `isAuthenticated`:
it answers 409 without a network call when unauthenticated, but delegates to
`sock.sendMessage` whenever `isAuthenticated` is true, even when the status
is not OPEN. -/
theorem c8_theorem :
    (∀ (s : SState) (f : Bool),
        ¬ (s.status = "connected") ∨ s.socket = none →
        apiSend004 s true f = (409, false)) ∧
    (∀ (s : SState) (f : Bool) (g : Nat),
        s.status = "connected" → s.socket = some g →
        apiSend004 s true f = (if f then 500 else 200, true)) ∧
    (∀ (s : WAState) (f : Bool), s.isAuthenticated = false →
        enviar000 s true f = (409, false)) ∧
    (∀ (s : WAState) (f : Bool), s.isAuthenticated = true →
        enviar000 s true f = (if f then 500 else 200, true)) := by
  refine ⟨?_, ?_, ?_, ?_⟩
  · intro s f h
    simp [apiSend004, h]
  · intro s f g h1 h2
    cases f <;> simp [apiSend004, h1, h2]
  · intro s f h
    simp [enviar000, h]
  · intro s f h
    cases f <;> simp [enviar000, h]

/-- C8 witness: the 409 rejection evaluated at the initial part_004 state. -/
theorem c8_witness :
    (¬ (initialB.status = "connected") ∨ initialB.socket = none) ∧
    apiSend004 initialB true false = (409, false) := by
  exact ⟨Or.inr rfl, c8_theorem.1 initialB false (Or.inr rfl)⟩

/-- C9 trace: a part_001 state holding a live socket. -/
def c9w1 : WAState := (connectToWhatsApp initialA false).1

/-- C9: the claim fails on part_001.  A first `/desconectar` on the live
session `c9w1` answers 200 and leaves status `desconectado`, but the second
`/desconectar` answers the error status 400 (no active session to close). -/
theorem c9_counterexample :
    (desconectar001 c9w1 false).2 = 200 ∧
    (desconectar001 c9w1 false).1.connectionStatus = "desconectado" ∧
    (desconectar001 (desconectar001 c9w1 false).1 false).2 = 400 := by
  refine ⟨rfl, rfl, rfl⟩

/-- C9 (amended): part_004 `/api/disconnect` is idempotent — from any state
with a live socket the first call answers 200 with status `disconnected` and
the second call answers 200 leaving the state unchanged; part_001
`/desconectar` answers 200 with status `desconectado` on the first call but
400 on the second. -/
theorem c9_theorem :
    (∀ (s : SState) (t1 t2 : Bool), s.socket ≠ none →
        (apiDisconnect004 s t1).2 = 200 ∧
        (apiDisconnect004 s t1).1.status = "disconnected" ∧
        apiDisconnect004 (apiDisconnect004 s t1).1 t2 = ((apiDisconnect004 s t1).1, 200)) ∧
    (∀ (s : WAState) (t : Bool), s.sock ≠ none →
        (desconectar001 s t).2 = 200 ∧
        (desconectar001 s t).1.connectionStatus = "desconectado" ∧
        (desconectar001 (desconectar001 s t).1 t).2 = 400) := by
  refine ⟨?_, ?_⟩
  · intro s t1 t2 hs
    cases hsock : s.socket with
    | none => exact absurd hsock hs
    | some g =>
        refine ⟨rfl, ?_, ?_⟩ <;> simp [apiDisconnect004, closeSession, hsock]
  · intro s t hs
    cases hsock : s.sock with
    | none => exact absurd hsock hs
    | some g =>
        refine ⟨?_, ?_, ?_⟩ <;> simp [desconectar001, cleanupSession, hsock]

/-- C9 witness: the part_001 disconnect pair evaluated at the concrete live
state `c9w1`. -/
theorem c9_witness :
    c9w1.sock ≠ none ∧ (desconectar001 c9w1 false).2 = 200 ∧
    (desconectar001 (desconectar001 c9w1 false).1 false).2 = 400 := by
  have h := c9_theorem.2 c9w1 false (by decide)
  exact ⟨by decide, h.1, h.2.2⟩

/-- C10 trace: a failed initialization leaves socket null and status
`error`. -/
def c10err : SState := initializeWhatsApp initialB true

/-- C10: the claim fails in the socket-null case.  In the reachable state
`c10err` (socket null, status `error`, produced by a failed
initialization), `closeSession` returns without touching the state, so
after it returns the status is still `error`, not `disconnected`. -/
theorem c10_counterexample :
    ReachB c10err ∧ c10err.socket = none ∧ c10err.status = "error" ∧
    closeSession c10err true = c10err ∧
    (closeSession c10err true).status ≠ "disconnected" := by
  refine ⟨ReachB.stepInit true ReachB.start, rfl, rfl, rfl, by decide⟩

/-- C10 (amended): when `closeSession` is invoked with a live socket it
resets socket, status, qr and retryCount before the logout and end calls,
and their failures are caught, so the reset postcondition holds even when
the teardown throws; when the socket is already null, `closeSession` is a
no-op and the previous field values (such as status `error`) survive. -/
theorem c10_theorem (s : SState) (t : Bool) :
    (s.socket ≠ none →
        closeSession s t =
          { socket := none, status := "disconnected", qr := none, retryCount := 0,
            maxRetries := s.maxRetries, nextGen := s.nextGen }) ∧
    (s.socket = none → closeSession s t = s) := by
  cases hsock : s.socket with
  | none =>
      refine ⟨fun hs => absurd rfl hs, fun _ => ?_⟩
      simp [closeSession, hsock]
  | some g =>
      refine ⟨fun _ => ?_, fun hs => Option.noConfusion hs⟩
      simp [closeSession, hsock]

/-- C10 witness: the reset postcondition evaluated at a concrete live
session, with a throwing teardown. -/
theorem c10_witness :
    (initializeWhatsApp initialB false).socket ≠ none ∧
    closeSession (initializeWhatsApp initialB false) true =
      { socket := none, status := "disconnected", qr := none, retryCount := 0,
        maxRetries := (initializeWhatsApp initialB false).maxRetries,
        nextGen := (initializeWhatsApp initialB false).nextGen } := by
  exact ⟨by decide, (c10_theorem (initializeWhatsApp initialB false) true).1 (by decide)⟩
